import Mathlib

/-!
Verification of the Job_bot harvest → filter → dedup → dispatch pipeline.

Python strings are modelled as `List Char`.  `str.lower` is modelled by
`Char.toLower` (identical to CPython on the ASCII range, which covers every
string constant and every string this program manipulates).  The pandas-backed
CSV ledger is modelled as a list of rows; a possibly-missing backing file is
modelled as `Option`.  Wall-clock dates are modelled as an abstract `Nat` day
and times of day as `Nat` (the comparisons on `datetime.time` are a total
order, which is all the scheduler code uses).
-/

/-- Model of Python `str.lower` (ASCII range). -/
def lowerStr (s : List Char) : List Char := s.map Char.toLower

/-! ## `scraper_parallel.extract_years_experience`

The source tries, in order, the regexes
`(\d+)\+\s*(?:years|yrs|yr)`, `(\d+)\s*(?:years|yrs|yr)`,
`(\d+)-\d+\s*(?:years|yrs|yr)` with `re.search` against the lowercased title
and returns `int(match.group(1))` of the first regex that matches, else `0`.

For these three patterns a regex match starting at a given position must take
the whole maximal digit run as group 1 (the following mandatory atom — `+`,
`-` or `\s*(?:years|yrs|yr)` — can never consume a digit), so `re.search` is
faithfully modelled by trying an anchored matcher at every start position,
leftmost first. -/

/-- Python `\s` (ASCII whitespace as used by `re` on `str`). -/
def pySpace (c : Char) : Bool :=
  c == ' ' || c == '\t' || c == '\n' || c == '\r' || c == Char.ofNat 11 || c == Char.ofNat 12

/-- The alternation `(?:years|yrs|yr)` matching at the head of `l`. -/
def unitWord (l : List Char) : Bool :=
  ("years".data).isPrefixOf l || ("yrs".data).isPrefixOf l || ("yr".data).isPrefixOf l

/-- Numeric value of a digit run (Python `int` of the captured group). -/
def digitsVal (ds : List Char) : Nat := ds.foldl (fun n c => n * 10 + (c.toNat - 48)) 0

/-- Anchored match of `(\d+)\+\s*(?:years|yrs|yr)` at the head of `l`. -/
def matchYearsPlus (l : List Char) : Option Nat :=
  let ds := l.takeWhile Char.isDigit
  if ds.isEmpty then none
  else
    match l.dropWhile Char.isDigit with
    | '+' :: r => if unitWord (r.dropWhile pySpace) then some (digitsVal ds) else none
    | _ => none

/-- Anchored match of `(\d+)\s*(?:years|yrs|yr)` at the head of `l`. -/
def matchYearsPlain (l : List Char) : Option Nat :=
  let ds := l.takeWhile Char.isDigit
  if ds.isEmpty then none
  else
    if unitWord ((l.dropWhile Char.isDigit).dropWhile pySpace) then some (digitsVal ds)
    else none

/-- Anchored match of `(\d+)-\d+\s*(?:years|yrs|yr)` at the head of `l`. -/
def matchYearsRange (l : List Char) : Option Nat :=
  let ds := l.takeWhile Char.isDigit
  if ds.isEmpty then none
  else
    match l.dropWhile Char.isDigit with
    | '-' :: r =>
        if (r.takeWhile Char.isDigit).isEmpty then none
        else
          if unitWord ((r.dropWhile Char.isDigit).dropWhile pySpace) then some (digitsVal ds)
          else none
    | _ => none

/-- `re.search`: try the anchored matcher at every position, leftmost first. -/
def reSearch (f : List Char → Option Nat) : List Char → Option Nat
  | [] => f []
  | c :: rest =>
      match f (c :: rest) with
      | some n => some n
      | none => reSearch f rest

/-- `scraper_parallel.extract_years_experience` (identical in `scraper.py`). -/
def extract_years_experience (title : List Char) : Nat :=
  let t := lowerStr title
  match reSearch matchYearsPlus t with
  | some n => n
  | none =>
      match reSearch matchYearsPlain t with
      | some n => n
      | none =>
          match reSearch matchYearsRange t with
          | some n => n
          | none => 0

/-! ## `scraper_parallel.is_relevant_job`

Returns the pair `(accept?, reason)`.  The reason strings of the source are
modelled as a closed inductive of their shapes (their exact text is never
consumed by the program). -/

inductive Reason where
  | excludedKeyword (kw : List Char)
  | noFilterKeywords
  | belowMinYears (got need : Nat)
  | matchedKeyword (kw : List Char)
  | noMatchingKeywords
deriving DecidableEq

/-- Python's substring test `needle in haystack`. -/
def containsSub (needle : List Char) : List Char → Bool
  | [] => needle.isEmpty
  | c :: rest => needle.isPrefixOf (c :: rest) || containsSub needle rest

/-- First exclude keyword whose lowercase form is a substring of the
lowercased title (`for exclude in exclude_keywords: if exclude.lower() in
title_lower`). -/
def findExcluded (title_lower : List Char) : List (List Char) → Option (List Char)
  | [] => none
  | e :: rest =>
      if containsSub (lowerStr e) title_lower then some e else findExcluded title_lower rest

/-- First target keyword whose lowercase form is a substring of the lowercased
title. -/
def findMatched (title_lower : List Char) : List (List Char) → Option (List Char)
  | [] => none
  | k :: rest =>
      if containsSub (lowerStr k) title_lower then some k else findMatched title_lower rest

/-- `scraper_parallel.is_relevant_job` (and, up to the reason component that
`scraper.py` drops, `scraper.is_relevant_job`). -/
def is_relevant_job (title : List Char) (keywords exclude_keywords : List (List Char))
    (min_years : Nat) : Bool × Reason :=
  let title_lower := lowerStr title
  match findExcluded title_lower exclude_keywords with
  | some e => (false, Reason.excludedKeyword e)
  | none =>
      if keywords.isEmpty then (true, Reason.noFilterKeywords)
      else
        match findMatched title_lower keywords with
        | some k =>
            if 0 < min_years then
              let job_years := extract_years_experience title
              if 0 < job_years && job_years < min_years then
                (false, Reason.belowMinYears job_years min_years)
              else (true, Reason.matchedKeyword k)
            else (true, Reason.matchedKeyword k)
        | none => (false, Reason.noMatchingKeywords)

/-! ## `database.py` — the persistent application ledger

A CSV row and the whole file.  `applied_date` is reduced to its date
component, an abstract `Nat` day (the code only ever compares dates for
equality with "today").  A possibly-missing `applied_jobs.csv` is an
`Option Ledger` (`none` = the file does not exist). -/

inductive Status where
  | sent
  | failed
deriving DecidableEq

structure LedgerRow where
  job_id : List Char
  job_title : List Char
  company : List Char
  email : List Char
  applied_day : Nat
  status : Status
deriving DecidableEq

abbrev Ledger := List LedgerRow

/-- `database.is_already_applied`: `job_id in df['job_id'].values`;
`False` when the CSV file does not exist. -/
def is_already_applied (store : Option Ledger) (job_id : List Char) : Bool :=
  match store with
  | none => false
  | some df => df.any (fun r => r.job_id == job_id)

/-- `database.is_email_already_contacted`:
`email.lower() in df['email'].str.lower().values`; `False` when the CSV file
does not exist and `False` for a `None`/empty email argument. -/
def is_email_already_contacted (store : Option Ledger) (email : Option (List Char)) : Bool :=
  match store with
  | none => false
  | some df =>
      match email with
      | none => false
      | some e =>
          if e.isEmpty then false
          else df.any (fun r => lowerStr r.email == lowerStr e)

/-- `database.get_todays_application_count`: rows whose `applied_date` date
equals today; `0` when the CSV file does not exist. -/
def get_todays_application_count (store : Option Ledger) (today : Nat) : Nat :=
  match store with
  | none => 0
  | some df => (df.filter (fun r => r.applied_day == today)).length

/-- `database.record_application`: append one row, e-mail stored lowercased,
`applied_date` stamped with the current day.  (The source reads the existing
CSV and rewrites it with the new row concatenated.) -/
def record_application (df : Ledger) (job_id job_title company email : List Char)
    (status : Status) (today : Nat) : Ledger :=
  df ++ [⟨job_id, job_title, company, lowerStr email, today, status⟩]

/-- The EOD reset (`main_parallel_scheduled.reset_csv_file` /
`database.initialize_database` afterwards): the store is truncated back to
empty-with-header. -/
def reset_ledger : Ledger := []

/-! ## The two dispatch loops

A harvested record as produced by the scrapers
(`{'job_id', 'title', 'company', 'email', 'url', 'location'}`). -/

structure Job where
  job_id : List Char
  title : List Char
  company : List Char
  email : List Char
  url : List Char
  location : List Char
deriving DecidableEq

/-- The per-candidate loop of `main.process_applications` (sequential
dispatch loop).  Result: final ledger, then the counters
`total_applied`, `total_skipped_job_id`, `total_skipped_email`.
`send` is the send collaborator `send_application(title, company, email)`.
The ledger exists (`initialize_database` ran), so the database functions see
`some` state; every check re-reads the current ledger. -/
def process_applications_loop (send : Job → Bool) (cap today : Nat) :
    List Job → Ledger → Ledger × Nat × Nat × Nat
  | [], df => (df, 0, 0, 0)
  | job :: rest, df =>
      let email := lowerStr job.email
      if is_already_applied (some df) job.job_id then
        let (df2, s, kj, ke) := process_applications_loop send cap today rest df
        (df2, s, kj + 1, ke)
      else if is_email_already_contacted (some df) (some email) then
        let (df2, s, kj, ke) := process_applications_loop send cap today rest df
        (df2, s, kj, ke + 1)
      else if cap ≤ get_todays_application_count (some df) today then
        (df, 0, 0, 0)
      else
        let success := send job
        let status := if success then Status.sent else Status.failed
        let df2 := record_application df job.job_id job.title job.company email status today
        let (df3, s, kj, ke) := process_applications_loop send cap today rest df2
        (df3, (if success then s + 1 else s), kj, ke)

/-- The snapshot deduplication of `main_parallel_scheduled.
process_applications_parallel` (lines 167–186): the applied e-mails and job
ids are loaded ONCE into in-memory sets and the candidate list is filtered
against that snapshot. -/
def process_applications_parallel_filter (df : Ledger) (jobs : List Job) : List Job :=
  let applied_job_ids := df.map (fun r => r.job_id)
  let applied_emails := df.map (fun r => lowerStr r.email)
  jobs.filter (fun job =>
    !(applied_job_ids.contains job.job_id) && !(applied_emails.contains (lowerStr job.email)))

/-- The send loop of `main_parallel_scheduled.process_applications_parallel`
(lines 195–208).  Note two divergences from the sequential loop, both present
in the source: the dedup keys are NOT re-checked here, and
`record_application` is called without a status argument, so every attempt is
recorded with the default status `'sent'`.  Result: final ledger and
`total_applied`. -/
def process_applications_parallel_loop (send : Job → Bool) (cap today : Nat) :
    List Job → Ledger → Ledger × Nat
  | [], df => (df, 0)
  | job :: rest, df =>
      if cap ≤ get_todays_application_count (some df) today then (df, 0)
      else
        let success := send job
        let df2 := record_application df job.job_id job.title job.company job.email
          Status.sent today
        let (df3, s) := process_applications_parallel_loop send cap today rest df2
        (df3, (if success then s + 1 else s))

/-- Snapshot filter followed by the send loop: the dispatch part of one
parallel cycle. -/
def process_applications_parallel_dispatch (send : Job → Bool) (cap today : Nat)
    (df : Ledger) (jobs : List Job) : Ledger × Nat :=
  process_applications_parallel_loop send cap today
    (process_applications_parallel_filter df jobs) df

/-! ## `scraper_parallel.scrape_job_detail_parallel` — the detail extractor

The pure core of one detail-page extraction, abstracted over what Selenium
and BeautifulSoup delivered: the text of the first row of the first table
(`none` when the page has no table or the table no row) and the page's
visible text. -/

/-- Python `str.strip()` (ASCII whitespace). -/
def pyStrip (l : List Char) : List Char :=
  ((l.dropWhile pySpace).reverse.dropWhile pySpace).reverse

/-- Split at the first occurrence of `sep`: `some (before, after)` when `sep`
occurs (so `Python sep in l` iff the result is `some`). -/
def breakOnFirst (sep : List Char) : List Char → Option (List Char × List Char)
  | [] => none
  | c :: rest =>
      if sep.isPrefixOf (c :: rest) then some ([], (c :: rest).drop sep.length)
      else
        match breakOnFirst sep rest with
        | some (pre, post) => some (c :: pre, post)
        | none => none

/-- Given the text after the first occurrence of `sep`, the element
`split(sep)[1]`: everything up to the next occurrence of `sep` (or the end). -/
def secondChunk (sep post : List Char) : List Char :=
  match breakOnFirst sep post with
  | some (pre, _) => pre
  | none => post

/-- Title/location extraction from the first table row
(`scraper_parallel.py` lines 218–234): split on the literal `" at "`;
without a first row the defaults are used. -/
def parse_title_row (first_row_text : Option (List Char)) : List Char × List Char :=
  match first_row_text with
  | none => (("Unknown Title".data), ("Not specified".data))
  | some t =>
      match breakOnFirst (" at ".data) t with
      | some (pre, post) => (pyStrip pre, pyStrip (secondChunk (" at ".data) post))
      | none => (t, ("Not specified".data))

/-- Character classes of the e-mail regex
`\b[A-Za-z0-9._%+-]+@[A-Za-z0-9.-]+\.[A-Z|a-z]{2,}\b`. -/
def emailLocalChar (c : Char) : Bool :=
  c.isAlpha || c.isDigit || c == '.' || c == '_' || c == '%' || c == '+' || c == '-'

def emailDomainChar (c : Char) : Bool :=
  c.isAlpha || c.isDigit || c == '.' || c == '-'

def emailTldChar (c : Char) : Bool := c.isAlpha || c == '|'

/-- Whether the tail of a domain run contains a `.` followed by at least two
characters of the final `[A-Z|a-z]{2,}` class (the backtracking split of
`[A-Za-z0-9.-]+\.[A-Z|a-z]{2,}`). -/
def hasTldSplit : List Char → Bool
  | [] => false
  | '.' :: t => (2 ≤ t.length && t.all emailTldChar) || hasTldSplit t
  | _ :: t => hasTldSplit t

/-- Anchored attempt of the e-mail regex at the head of `l` (word-boundary
conditions elided; greedy sub-matches are whole maximal runs). -/
def emailMatchAt (l : List Char) : Option (List Char) :=
  let loc := l.takeWhile emailLocalChar
  if loc.isEmpty then none
  else
    match l.dropWhile emailLocalChar with
    | '@' :: r =>
        let dom := r.takeWhile emailDomainChar
        match dom with
        | [] => none
        | _ :: domTail =>
            if hasTldSplit domTail then some (loc ++ '@' :: dom) else none
    | _ => none

/-- The operator/bot block-list of `scraper_parallel.extract_email`. -/
def excluded_emails : List (List Char) :=
  [("usjobs@nvoids.com".data), ("resumes@nvoids.com".data),
   ("nvoids.jobs@gmail.com".data), ("info@nvoids.com".data),
   ("support@nvoids.com".data), ("noreply@nvoids.com".data)]

/-- Scan for the first regex match whose lowercase form is not block-listed
(`re.findall` then the first non-excluded match; an excluded match is skipped
over in full, as `findall`'s matches never overlap).  `fuel` bounds the scan
length so the recursion is structural; it never runs out when initialized
with the text length. -/
def extract_email_scan : Nat → List Char → Option (List Char)
  | 0, _ => none
  | _ + 1, [] => none
  | fuel + 1, c :: rest =>
      match emailMatchAt (c :: rest) with
      | some em =>
          if excluded_emails.contains (lowerStr em) then
            extract_email_scan fuel (rest.drop (em.length - 1))
          else some em
      | none => extract_email_scan fuel rest

/-- `scraper_parallel.extract_email`. -/
def extract_email (text : List Char) : Option (List Char) :=
  extract_email_scan text.length text

/-- Python `str.capitalize()` (first character upper-cased, rest lowered). -/
def pyCapitalize (s : List Char) : List Char :=
  match s with
  | [] => []
  | c :: rest => c.toUpper :: lowerStr rest

/-- Company derivation from the contact address's domain label
(`email.split('@')[1]`, then `domain.split('.')[0].capitalize()`). -/
def company_from_email (email : List Char) : List Char :=
  match breakOnFirst ['@'] email with
  | some (_, post) =>
      let domain := secondChunk ['@'] post
      match domain with
      | [] => ("Unknown Company".data)
      | _ =>
          pyCapitalize (match breakOnFirst ['.'] domain with
            | some (pre, _) => pre
            | none => domain)
  | none => ("Unknown Company".data)

/-- `job_id` derivation:
`detail_url.split('id=')[1].split('&')[0] if 'id=' in detail_url else detail_url`. -/
def job_id_from_url (url : List Char) : List Char :=
  match breakOnFirst ("id=".data) url with
  | some (_, post) =>
      let chunk := secondChunk ("id=".data) post
      match breakOnFirst ['&'] chunk with
      | some (pre, _) => pre
      | none => chunk
  | none => url

/-- The closed outcome set of one detail extraction.  (The `Error` outcome of
the source arises only from raised I/O exceptions, which the pure core cannot
produce.) -/
inductive Outcome where
  | success (job : Job)
  | filtered (reason : Reason)
  | noEmail
deriving DecidableEq

/-- Pure core of `scraper_parallel.scrape_job_detail_parallel`: parse the
title, apply the relevance filter, and only on acceptance scan the page text
for a contact address. -/
def scrape_job_detail_parallel (keywords exclude_keywords : List (List Char))
    (min_years : Nat) (first_row_text : Option (List Char)) (page_text : List Char)
    (detail_url : List Char) : Outcome :=
  let tl := parse_title_row first_row_text
  let rel := is_relevant_job tl.1 keywords exclude_keywords min_years
  if !rel.1 then Outcome.filtered rel.2
  else
    match extract_email page_text with
    | none => Outcome.noEmail
    | some email =>
        Outcome.success
          ⟨job_id_from_url detail_url, tl.1, company_from_email email, email,
            detail_url, tl.2⟩

/-! ## `scraper_parallel.scrape_jobs_parallel` — within-cycle dedup -/

/-- The candidate-URL extraction dedup (lines 354–365):
`if full_url not in job_urls: job_urls.append(full_url)`. -/
def scrape_jobs_parallel_urls (hrefs : List (List Char)) : List (List Char) :=
  hrefs.foldl (fun job_urls u => if job_urls.contains u then job_urls else job_urls ++ [u]) []

/-- The result-collection loop (lines 386–399).  `results` is the sequence of
worker outcomes in completion order (`as_completed`); `seen` is the
synchronized `seen_job_ids` set, modelled as the list of ids inserted so far.
A completed job is kept only if its `job_id` was not seen before — the first
completing duplicate wins. -/
def scrape_jobs_parallel_collect : List (Option Job) → List (List Char) → List Job
  | [], _ => []
  | none :: rest, seen => scrape_jobs_parallel_collect rest seen
  | some job :: rest, seen =>
      if seen.contains job.job_id then scrape_jobs_parallel_collect rest seen
      else job :: scrape_jobs_parallel_collect rest (job.job_id :: seen)

/-! ## `scheduler_config.is_within_working_hours`

Times of day are abstracted to `Nat`; `datetime.time` comparison is the
matching total order.  The day-of-week membership test
(`current_day not in DAYS_TO_RUN`) keeps its string form. -/

def is_within_working_hours (current_time start_time end_time : Nat)
    (current_day : List Char) (days_to_run : List (List Char)) : Bool :=
  if !(days_to_run.contains current_day) then false
  else if current_time < start_time then false
  else if end_time < current_time then false
  else true

/-! ## Supporting lemmas -/

/-- `Char.ofNat` of a valid codepoint round-trips through `toNat`. -/
theorem toNat_ofNat_valid (n : Nat) (h : n.isValidChar) : (Char.ofNat n).toNat = n := by
  rw [Char.ofNat, dif_pos h]; rfl

/-- ASCII lowering is idempotent. -/
theorem toLower_idem (c : Char) : c.toLower.toLower = c.toLower := by
  unfold Char.toLower
  by_cases h : c.toNat ≥ 65 ∧ c.toNat ≤ 90
  · rw [if_pos h]
    have hv : (c.toNat + 32).isValidChar := Or.inl (by omega)
    rw [toNat_ofNat_valid _ hv, if_neg (by omega)]
  · rw [if_neg h, if_neg h]

/-- `lowerStr` is idempotent (CPython's `s.lower().lower() == s.lower()`). -/
theorem lowerStr_idem (s : List Char) : lowerStr (lowerStr s) = lowerStr s := by
  simp [lowerStr, List.map_map, Function.comp, toLower_idem]

theorem lowerStr_nil_iff (s : List Char) : lowerStr s = [] ↔ s = [] := by
  simp [lowerStr]

/-- A member exclude keyword that substring-matches forces `findExcluded` to
return a hit. -/
theorem findExcluded_isSome_of_mem (title_lower : List Char) (l : List (List Char))
    (e : List Char) (hmem : e ∈ l) (hsub : containsSub (lowerStr e) title_lower = true) :
    ∃ e2, findExcluded title_lower l = some e2 := by
  induction l with
  | nil => cases hmem
  | cons x rest ih =>
      unfold findExcluded
      by_cases hx : containsSub (lowerStr x) title_lower = true
      · exact ⟨x, by rw [if_pos hx]⟩
      · rw [if_neg hx]
        rcases List.mem_cons.mp hmem with h | h
        · rw [h] at hsub
          exact absurd hsub hx
        · exact ih h

/-- Every record kept by the collection loop has a `job_id` that was not in
the `seen` set the loop started from. -/
theorem collect_job_id_not_seen (results : List (Option Job)) :
    ∀ (seen : List (List Char)) (j : Job),
      j ∈ scrape_jobs_parallel_collect results seen → j.job_id ∉ seen := by
  induction results with
  | nil =>
      intro seen j h
      cases h
  | cons r rest ih =>
      intro seen j h
      cases r with
      | none => exact ih seen j h
      | some job =>
          unfold scrape_jobs_parallel_collect at h
          by_cases hs : seen.contains job.job_id = true
          · rw [if_pos hs] at h
            exact ih seen j h
          · rw [if_neg hs] at h
            rcases List.mem_cons.mp h with h1 | h2
            · rw [h1]
              exact fun hmem => hs (List.elem_iff.mpr hmem)
            · have h3 := ih _ j h2
              exact fun hmem => h3 (List.mem_cons_of_mem _ hmem)

/-- The collected job ids are pairwise distinct. -/
theorem collect_nodup (results : List (Option Job)) :
    ∀ seen : List (List Char),
      ((scrape_jobs_parallel_collect results seen).map (fun j => j.job_id)).Nodup := by
  induction results with
  | nil =>
      intro seen
      simp [scrape_jobs_parallel_collect]
  | cons r rest ih =>
      intro seen
      cases r with
      | none => exact ih seen
      | some job =>
          unfold scrape_jobs_parallel_collect
          by_cases hs : seen.contains job.job_id = true
          · rw [if_pos hs]
            exact ih seen
          · rw [if_neg hs]
            rw [List.map_cons, List.nodup_cons]
            constructor
            · intro hmem
              rcases List.mem_map.mp hmem with ⟨j2, hj2, heq⟩
              have h4 := collect_job_id_not_seen rest _ j2 hj2
              rw [heq] at h4
              exact h4 (List.mem_cons_self _ _)
            · exact ih _

/-- First completion wins: the collected record for a given id is the first
completed success carrying that id. -/
theorem collect_find_eq (results : List (Option Job)) :
    ∀ (seen : List (List Char)) (jid : List Char), jid ∉ seen →
      (scrape_jobs_parallel_collect results seen).find? (fun j => j.job_id == jid) =
      (results.filterMap (fun x => x)).find? (fun j => j.job_id == jid) := by
  induction results with
  | nil =>
      intro seen jid _
      rfl
  | cons r rest ih =>
      intro seen jid hnot
      cases r with
      | none =>
          have hfm : (List.filterMap (fun x : Option Job => x) (none :: rest)) =
              List.filterMap (fun x => x) rest := rfl
          rw [hfm]
          exact ih seen jid hnot
      | some job =>
          have hfm : (List.filterMap (fun x : Option Job => x) (some job :: rest)) =
              job :: List.filterMap (fun x => x) rest := rfl
          rw [hfm]
          unfold scrape_jobs_parallel_collect
          cases hbe : job.job_id == jid with
          | true =>
              have hjs : job.job_id ∉ seen := by
                rw [beq_iff_eq] at hbe
                rw [hbe]
                exact hnot
              rw [if_neg (fun hc => hjs (List.elem_iff.mp hc))]
              simp only [List.find?, hbe]
          | false =>
              by_cases hs : seen.contains job.job_id = true
              · rw [if_pos hs]
                simp only [List.find?, hbe]
                exact ih seen jid hnot
              · rw [if_neg hs]
                simp only [List.find?, hbe]
                apply ih
                intro hmem
                rcases List.mem_cons.mp hmem with h1 | h2
                · rw [h1] at hbe
                  simp at hbe
                · exact hnot h2

/-- The URL-extraction fold keeps `job_urls` free of duplicates. -/
theorem urls_fold_nodup (hrefs : List (List Char)) :
    ∀ acc : List (List Char), acc.Nodup →
      (hrefs.foldl
        (fun job_urls u => if job_urls.contains u then job_urls else job_urls ++ [u])
        acc).Nodup := by
  induction hrefs with
  | nil =>
      intro acc h
      exact h
  | cons u rest ih =>
      intro acc hacc
      simp only [List.foldl_cons]
      by_cases hc : acc.contains u = true
      · rw [if_pos hc]
        exact ih acc hacc
      · rw [if_neg hc]
        apply ih
        rw [List.nodup_append]
        refine ⟨hacc, List.nodup_singleton u, ?_⟩
        intro a ha hmem
        rw [List.mem_singleton] at hmem
        rw [hmem] at ha
        exact hc (List.elem_iff.mpr ha)

/-- A `false` e-mail dedup answer on a nonempty address means no ledger row
carries that (lowercased) address. -/
theorem email_not_contacted_means_not_mem (df : Ledger) (e : List Char) (hne : e ≠ [])
    (h : is_email_already_contacted (some df) (some (lowerStr e)) = false) :
    lowerStr e ∉ df.map (fun r => lowerStr r.email) := by
  intro hmem
  rcases List.mem_map.mp hmem with ⟨r, hr, heq⟩
  unfold is_email_already_contacted at h
  have hemp : (lowerStr e).isEmpty = false := by
    cases he : lowerStr e with
    | nil => exact absurd ((lowerStr_nil_iff e).mp he) hne
    | cons a t => rfl
  simp only [hemp, Bool.false_eq_true, if_false, lowerStr_idem, List.any_eq_false] at h
  exact absurd (by simpa using heq) (by simpa using h r hr)

/-- A `false` job-id dedup answer means no ledger row carries that id. -/
theorem job_not_applied_means_not_mem (df : Ledger) (jid : List Char)
    (h : is_already_applied (some df) jid = false) :
    jid ∉ df.map (fun r => r.job_id) := by
  intro hmem
  rcases List.mem_map.mp hmem with ⟨r, hr, heq⟩
  unfold is_already_applied at h
  simp only [List.any_eq_false] at h
  exact absurd (by simpa using heq) (by simpa using h r hr)

theorem record_map_emails (df : Ledger) (jid t c e : List Char) (st : Status) (d : Nat) :
    (record_application df jid t c e st d).map (fun r => lowerStr r.email) =
      df.map (fun r => lowerStr r.email) ++ [lowerStr e] := by
  unfold record_application
  simp [lowerStr_idem]

theorem record_map_ids (df : Ledger) (jid t c e : List Char) (st : Status) (d : Nat) :
    (record_application df jid t c e st d).map (fun r => r.job_id) =
      df.map (fun r => r.job_id) ++ [jid] := by
  unfold record_application
  simp

/-- Main induction for C1: the sequential dispatch loop preserves
no-duplicate (lowercased) e-mails and no-duplicate job ids in the ledger,
because both dedup keys are re-checked against the then-current ledger before
every send. -/
theorem seq_loop_nodup_aux (send : Job → Bool) (cap today : Nat) :
    ∀ (jobs : List Job) (df : Ledger), (∀ j ∈ jobs, j.email ≠ []) →
      ((df.map (fun r => lowerStr r.email)).Nodup →
        (((process_applications_loop send cap today jobs df).1).map
          (fun r => lowerStr r.email)).Nodup) ∧
      ((df.map (fun r => r.job_id)).Nodup →
        (((process_applications_loop send cap today jobs df).1).map
          (fun r => r.job_id)).Nodup) := by
  intro jobs
  induction jobs with
  | nil =>
      intro df _
      exact ⟨id, id⟩
  | cons j rest ih =>
      intro df hne
      have hne_rest : ∀ x ∈ rest, x.email ≠ [] :=
        fun x hx => hne x (List.mem_cons_of_mem _ hx)
      have hne_j : j.email ≠ [] := hne j (List.mem_cons_self _ _)
      unfold process_applications_loop
      by_cases h1 : is_already_applied (some df) j.job_id = true
      · rw [if_pos h1]
        rcases hrec : process_applications_loop send cap today rest df with ⟨df2, s, kj, ke⟩
        have hih := ih df hne_rest
        rw [hrec] at hih
        exact ⟨fun hnd => by simpa using hih.1 hnd, fun hnd => by simpa using hih.2 hnd⟩
      · rw [if_neg h1]
        by_cases h2 : is_email_already_contacted (some df) (some (lowerStr j.email)) = true
        · rw [if_pos h2]
          rcases hrec : process_applications_loop send cap today rest df with ⟨df2, s, kj, ke⟩
          have hih := ih df hne_rest
          rw [hrec] at hih
          exact ⟨fun hnd => by simpa using hih.1 hnd, fun hnd => by simpa using hih.2 hnd⟩
        · rw [if_neg h2]
          by_cases h3 : cap ≤ get_todays_application_count (some df) today
          · rw [if_pos h3]
            exact ⟨id, id⟩
          · rw [if_neg h3]
            rcases hrec : process_applications_loop send cap today rest
              (record_application df j.job_id j.title j.company (lowerStr j.email)
                (if send j then Status.sent else Status.failed) today) with ⟨df2, s, kj, ke⟩
            have hih := ih (record_application df j.job_id j.title j.company (lowerStr j.email)
              (if send j then Status.sent else Status.failed) today) hne_rest
            rw [hrec] at hih
            constructor
            · intro hnd
              have hnotmem : lowerStr j.email ∉ df.map (fun r => lowerStr r.email) :=
                email_not_contacted_means_not_mem df j.email hne_j
                  (by simpa using h2)
              have hnd2 : ((record_application df j.job_id j.title j.company (lowerStr j.email)
                  (if send j then Status.sent else Status.failed) today).map
                    (fun r => lowerStr r.email)).Nodup := by
                rw [record_map_emails, lowerStr_idem, List.nodup_append]
                exact ⟨hnd, List.nodup_singleton _,
                  by simpa [List.disjoint_right] using hnotmem⟩
              have := hih.1 hnd2
              simpa [hrec] using this
            · intro hnd
              have hnotmem : j.job_id ∉ df.map (fun r => r.job_id) :=
                job_not_applied_means_not_mem df j.job_id (by simpa using h1)
              have hnd2 : ((record_application df j.job_id j.title j.company (lowerStr j.email)
                  (if send j then Status.sent else Status.failed) today).map
                    (fun r => r.job_id)).Nodup := by
                rw [record_map_ids, List.nodup_append]
                exact ⟨hnd, List.nodup_singleton _,
                  by simpa [List.disjoint_right] using hnotmem⟩
              have := hih.2 hnd2
              simpa [hrec] using this

/-! ## Claim theorems -/

/-- Claim C1, counterexample: the parallel dispatch loop
(`main_parallel_scheduled.process_applications_parallel`) dedups against a
snapshot of the ledger taken once per cycle, so two fresh candidates carrying
the same address (here `a@b.co`, differing only in case) are BOTH sent and
recorded within one cycle — the address appended for the first candidate is
contacted again later in the same cycle. -/
theorem parallel_dispatch_recontacts_email_within_cycle :
    ((process_applications_parallel_dispatch (fun _ => true) 1000 0 []
        [⟨"1".data, "t".data, "c".data, "a@b.co".data, "x".data, "l".data⟩,
         ⟨"2".data, "u".data, "c".data, "A@b.co".data, "y".data, "l".data⟩]).1.map
      (fun r => r.email)) = [("a@b.co".data), ("a@b.co".data)] := by decide

/-- Claim C1 (amended): in the sequential dispatch loop
(`main.process_applications`) both dedup keys are re-checked against the
current ledger state before every send and no in-memory cache outlives a
decision, so a ledger with pairwise-distinct (lowercased) e-mails and
pairwise-distinct job ids keeps both properties through a whole cycle: an
address or posting recorded earlier in the cycle is never sent again later in
that cycle. -/
theorem sequential_dispatch_never_recontacts_within_cycle
    (send : Job → Bool) (cap today : Nat) (jobs : List Job) (df : Ledger)
    (hne : ∀ j ∈ jobs, j.email ≠ []) :
    ((df.map (fun r => lowerStr r.email)).Nodup →
      (((process_applications_loop send cap today jobs df).1).map
        (fun r => lowerStr r.email)).Nodup) ∧
    ((df.map (fun r => r.job_id)).Nodup →
      (((process_applications_loop send cap today jobs df).1).map
        (fun r => r.job_id)).Nodup) :=
  seq_loop_nodup_aux send cap today jobs df hne

/-- Witness for C1's theorem: two candidates sharing one address (different
casing), empty starting ledger; the final ledger still has no duplicate
address and no duplicate job id. -/
theorem sequential_dispatch_never_recontacts_within_cycle_witness :
    (∀ j ∈ ([⟨"1".data, "t".data, "c".data, "a@b.co".data, "x".data, "l".data⟩,
        ⟨"2".data, "u".data, "c".data, "A@b.co".data, "y".data, "l".data⟩] : List Job),
      j.email ≠ []) ∧
    (((process_applications_loop (fun _ => true) 1000 0
        [⟨"1".data, "t".data, "c".data, "a@b.co".data, "x".data, "l".data⟩,
         ⟨"2".data, "u".data, "c".data, "A@b.co".data, "y".data, "l".data⟩] []).1).map
      (fun r => lowerStr r.email)).Nodup ∧
    (((process_applications_loop (fun _ => true) 1000 0
        [⟨"1".data, "t".data, "c".data, "a@b.co".data, "x".data, "l".data⟩,
         ⟨"2".data, "u".data, "c".data, "A@b.co".data, "y".data, "l".data⟩] []).1).map
      (fun r => r.job_id)).Nodup :=
  ⟨by decide,
   (sequential_dispatch_never_recontacts_within_cycle (fun _ => true) 1000 0
      [⟨"1".data, "t".data, "c".data, "a@b.co".data, "x".data, "l".data⟩,
       ⟨"2".data, "u".data, "c".data, "A@b.co".data, "y".data, "l".data⟩] []
      (by decide)).1 (by decide),
   (sequential_dispatch_never_recontacts_within_cycle (fun _ => true) 1000 0
      [⟨"1".data, "t".data, "c".data, "a@b.co".data, "x".data, "l".data⟩,
       ⟨"2".data, "u".data, "c".data, "A@b.co".data, "y".data, "l".data⟩] []
      (by decide)).2 (by decide)⟩

/-- Claim C2: once `get_todays_application_count` has reached the daily cap,
the parallel send loop returns immediately with the ledger unchanged and zero
sends for ANY candidate list, and the sequential loop does the same for any
list of fresh candidates — remaining candidates are abandoned, no row is
written and no send is attempted. -/
theorem dispatch_stops_when_daily_cap_reached
    (send : Job → Bool) (cap today : Nat) (df : Ledger)
    (hcap : cap ≤ get_todays_application_count (some df) today) :
    (∀ jobs : List Job, process_applications_parallel_loop send cap today jobs df = (df, 0)) ∧
    (∀ jobs : List Job,
      (∀ j ∈ jobs, is_already_applied (some df) j.job_id = false ∧
        is_email_already_contacted (some df) (some (lowerStr j.email)) = false) →
      process_applications_loop send cap today jobs df = (df, 0, 0, 0)) := by
  constructor
  · intro jobs
    cases jobs with
    | nil => rfl
    | cons j rest =>
        unfold process_applications_parallel_loop
        rw [if_pos hcap]
  · intro jobs hfresh
    cases jobs with
    | nil => rfl
    | cons j rest =>
        unfold process_applications_loop
        have h1 := (hfresh j (List.mem_cons_self _ _)).1
        have h2 := (hfresh j (List.mem_cons_self _ _)).2
        rw [if_neg (by simp [h1]), if_neg (by simp [h2]), if_pos hcap]

/-- Witness for C2: `dailyCap = 2`, a ledger with two rows for today, five
fresh candidates; both loops send to none and write nothing. -/
theorem dispatch_stops_when_daily_cap_reached_witness :
    2 ≤ get_todays_application_count
      (some [⟨"8".data, "t".data, "c".data, "p@q.co".data, 0, Status.sent⟩,
             ⟨"9".data, "t".data, "c".data, "r@q.co".data, 0, Status.sent⟩]) 0 ∧
    process_applications_parallel_loop (fun _ => true) 2 0
        [⟨"1".data, "t".data, "c".data, "a@b.co".data, "x".data, "l".data⟩,
         ⟨"2".data, "t".data, "c".data, "b@b.co".data, "x".data, "l".data⟩,
         ⟨"3".data, "t".data, "c".data, "c@b.co".data, "x".data, "l".data⟩,
         ⟨"4".data, "t".data, "c".data, "d@b.co".data, "x".data, "l".data⟩,
         ⟨"5".data, "t".data, "c".data, "e@b.co".data, "x".data, "l".data⟩]
        [⟨"8".data, "t".data, "c".data, "p@q.co".data, 0, Status.sent⟩,
         ⟨"9".data, "t".data, "c".data, "r@q.co".data, 0, Status.sent⟩] =
      ([⟨"8".data, "t".data, "c".data, "p@q.co".data, 0, Status.sent⟩,
        ⟨"9".data, "t".data, "c".data, "r@q.co".data, 0, Status.sent⟩], 0) ∧
    process_applications_loop (fun _ => true) 2 0
        [⟨"1".data, "t".data, "c".data, "a@b.co".data, "x".data, "l".data⟩,
         ⟨"2".data, "t".data, "c".data, "b@b.co".data, "x".data, "l".data⟩,
         ⟨"3".data, "t".data, "c".data, "c@b.co".data, "x".data, "l".data⟩,
         ⟨"4".data, "t".data, "c".data, "d@b.co".data, "x".data, "l".data⟩,
         ⟨"5".data, "t".data, "c".data, "e@b.co".data, "x".data, "l".data⟩]
        [⟨"8".data, "t".data, "c".data, "p@q.co".data, 0, Status.sent⟩,
         ⟨"9".data, "t".data, "c".data, "r@q.co".data, 0, Status.sent⟩] =
      ([⟨"8".data, "t".data, "c".data, "p@q.co".data, 0, Status.sent⟩,
        ⟨"9".data, "t".data, "c".data, "r@q.co".data, 0, Status.sent⟩], 0, 0, 0) :=
  ⟨by decide,
   (dispatch_stops_when_daily_cap_reached (fun _ => true) 2 0
      [⟨"8".data, "t".data, "c".data, "p@q.co".data, 0, Status.sent⟩,
       ⟨"9".data, "t".data, "c".data, "r@q.co".data, 0, Status.sent⟩] (by decide)).1
     [⟨"1".data, "t".data, "c".data, "a@b.co".data, "x".data, "l".data⟩,
      ⟨"2".data, "t".data, "c".data, "b@b.co".data, "x".data, "l".data⟩,
      ⟨"3".data, "t".data, "c".data, "c@b.co".data, "x".data, "l".data⟩,
      ⟨"4".data, "t".data, "c".data, "d@b.co".data, "x".data, "l".data⟩,
      ⟨"5".data, "t".data, "c".data, "e@b.co".data, "x".data, "l".data⟩],
   (dispatch_stops_when_daily_cap_reached (fun _ => true) 2 0
      [⟨"8".data, "t".data, "c".data, "p@q.co".data, 0, Status.sent⟩,
       ⟨"9".data, "t".data, "c".data, "r@q.co".data, 0, Status.sent⟩] (by decide)).2
     [⟨"1".data, "t".data, "c".data, "a@b.co".data, "x".data, "l".data⟩,
      ⟨"2".data, "t".data, "c".data, "b@b.co".data, "x".data, "l".data⟩,
      ⟨"3".data, "t".data, "c".data, "c@b.co".data, "x".data, "l".data⟩,
      ⟨"4".data, "t".data, "c".data, "d@b.co".data, "x".data, "l".data⟩,
      ⟨"5".data, "t".data, "c".data, "e@b.co".data, "x".data, "l".data⟩] (by decide)⟩

/-- Claim C3, code-bug evaluation: with a send collaborator that returns
`False`, the parallel send loop records the attempt with status `sent`
(`record_application` is called without a status argument, so the `'sent'`
default applies), while the sequential loop records the same attempt as
`failed`, which is what the spec and `database.record_application`'s own
documentation prescribe.  In both loops the attempt appends exactly one row
and the loop is not halted. -/
theorem parallel_dispatch_records_failed_send_as_sent :
    process_applications_parallel_loop (fun _ => false) 1000 0
        [⟨"1".data, "t".data, "c".data, "a@b.co".data, "x".data, "l".data⟩] [] =
      ([⟨"1".data, "t".data, "c".data, "a@b.co".data, 0, Status.sent⟩], 0) ∧
    process_applications_loop (fun _ => false) 1000 0
        [⟨"1".data, "t".data, "c".data, "a@b.co".data, "x".data, "l".data⟩] [] =
      ([⟨"1".data, "t".data, "c".data, "a@b.co".data, 0, Status.failed⟩], 0, 0, 0) :=
  ⟨by decide, by decide⟩

/-- Claim C4, counterexample: `extract_years_experience("7-10 years")`
returns 10, not 7 — the second pattern `(\d+)\s*(?:years|yrs|yr)` matches the
range's upper bound `10 years` before the `N-M` pattern is ever tried. -/
theorem extract_years_range_returns_upper_bound :
    extract_years_experience ("7-10 years".data) = 10 ∧
    extract_years_experience ("7-10 years".data) ≠ 7 := ⟨by decide, by decide⟩

/-- Claim C4 (amended): the patterns are tried in the stated priority order,
`extractYears("Senior Java Developer - 8+ years experience") = 8`,
`extractYears("7-10 years") = 10` (the "N years" pattern captures the upper
bound first), `extractYears("Java Developer") = 0`, and a `0` extraction
makes the filter behave exactly as if `minYears` were `0` — it never rejects
on the years criterion. -/
theorem extract_years_examples_and_zero_never_rejects :
    extract_years_experience ("Senior Java Developer - 8+ years experience".data) = 8 ∧
    extract_years_experience ("7-10 years".data) = 10 ∧
    extract_years_experience ("Java Developer".data) = 0 ∧
    ∀ (title : List Char) (keywords exclude_keywords : List (List Char)) (min_years : Nat),
      extract_years_experience title = 0 →
      is_relevant_job title keywords exclude_keywords min_years =
        is_relevant_job title keywords exclude_keywords 0 := by
  refine ⟨by decide, by decide, by decide, ?_⟩
  intro title kws exs my h0
  unfold is_relevant_job
  cases hfe : findExcluded (lowerStr title) exs with
  | some e => simp only [hfe]
  | none =>
      simp only [hfe]
      by_cases hk : kws.isEmpty
      · simp only [hk, if_true]
      · simp only [hk, Bool.false_eq_true, if_false]
        cases hm : findMatched (lowerStr title) kws with
        | none => simp only [hm]
        | some k =>
            simp only [hm, h0]
            simp

/-- Witness for C4's theorem: a title with no years mention is treated
identically under `minYears = 5` and `minYears = 0`. -/
theorem extract_years_examples_and_zero_never_rejects_witness :
    extract_years_experience ("Java Developer".data) = 0 ∧
    is_relevant_job ("Java Developer".data) [("java".data)] [("junior".data)] 5 =
      is_relevant_job ("Java Developer".data) [("java".data)] [("junior".data)] 0 :=
  ⟨by decide,
   extract_years_examples_and_zero_never_rejects.2.2.2 ("Java Developer".data)
     [("java".data)] [("junior".data)] 5 (by decide)⟩

/-- Claim C5: within one harvest, the collected result never holds two
records with the same `job_id`; the record kept for an id is the FIRST
completed success carrying it (later duplicates are discarded); and the
candidate-URL list is itself duplicate-free, so a listing naming the same
detail URL twice contributes one fetch and at most one record. -/
theorem harvest_collect_nodup_first_wins (results : List (Option Job)) :
    ((scrape_jobs_parallel_collect results []).map (fun j => j.job_id)).Nodup ∧
    (∀ jid : List Char,
      (scrape_jobs_parallel_collect results []).find? (fun j => j.job_id == jid) =
      (results.filterMap (fun x => x)).find? (fun j => j.job_id == jid)) ∧
    ∀ hrefs : List (List Char), (scrape_jobs_parallel_urls hrefs).Nodup :=
  ⟨collect_nodup results [],
   fun jid => collect_find_eq results [] jid (List.not_mem_nil jid),
   fun hrefs => urls_fold_nodup hrefs [] List.nodup_nil⟩

/-- Claim C6: an exclude keyword that case-insensitively substring-matches
the title makes the Relevance Filter reject, whatever the target keywords,
the minimum-years setting or the title's years content. -/
theorem exclude_keyword_always_rejects
    (title : List Char) (keywords exclude_keywords : List (List Char)) (min_years : Nat)
    (e : List Char) (hmem : e ∈ exclude_keywords)
    (hsub : containsSub (lowerStr e) (lowerStr title) = true) :
    (is_relevant_job title keywords exclude_keywords min_years).1 = false := by
  obtain ⟨e2, he2⟩ := findExcluded_isSome_of_mem (lowerStr title) exclude_keywords e hmem hsub
  unfold is_relevant_job
  simp only [he2]

/-- Witness for C6: "junior" excludes "Junior Java Developer" although
"java" is a matching target keyword. -/
theorem exclude_keyword_always_rejects_witness :
    ("junior".data ∈ [("junior".data)]) ∧
    containsSub (lowerStr ("junior".data)) (lowerStr ("Junior Java Developer".data)) = true ∧
    (is_relevant_job ("Junior Java Developer".data) [("java".data)] [("junior".data)] 0).1
      = false :=
  ⟨by decide, by decide,
   exclude_keyword_always_rejects ("Junior Java Developer".data) [("java".data)]
     [("junior".data)] 0 ("junior".data) (by decide) (by decide)⟩

/-- Claim C7: on a scheduled day the window check is a plain numeric
comparison — with `end < start` it never matches (no wraparound), and with
`start ≤ end` it matches exactly the closed interval `[start, end]`. -/
theorem working_hours_window_plain_comparison
    (t s e : Nat) (day : List Char) (days : List (List Char)) (hday : day ∈ days) :
    (e < s → is_within_working_hours t s e day days = false) ∧
    (s ≤ e → (is_within_working_hours t s e day days = true ↔ s ≤ t ∧ t ≤ e)) := by
  have hc : days.contains day = true := List.elem_iff.mpr hday
  unfold is_within_working_hours
  simp only [hc, Bool.not_true, Bool.false_eq_true, if_false]
  constructor
  · intro hes
    split_ifs with h1 h2
    · rfl
    · rfl
    · omega
  · intro hse
    split_ifs with h1 h2
    · simp only [Bool.false_eq_true, false_iff]
      omega
    · simp only [Bool.false_eq_true, false_iff]
      omega
    · simp only [true_iff]
      omega

/-- Witness for C7: an inverted window (18 to 9) rejects 10 o'clock; a normal
window (9 to 15) accepts it. -/
theorem working_hours_window_plain_comparison_witness :
    (("Monday".data) ∈ [("Monday".data)]) ∧
    is_within_working_hours 10 18 9 ("Monday".data) [("Monday".data)] = false ∧
    (is_within_working_hours 10 9 15 ("Monday".data) [("Monday".data)] = true ↔
      9 ≤ 10 ∧ 10 ≤ 15) :=
  ⟨by decide,
   (working_hours_window_plain_comparison 10 18 9 ("Monday".data) [("Monday".data)]
      (by decide)).1 (by decide),
   (working_hours_window_plain_comparison 10 9 15 ("Monday".data) [("Monday".data)]
      (by decide)).2 (by decide)⟩

/-- Claim C8: after appending a row, `is_already_applied` answers true for
its job id through any sequence of further appends, `is_email_already_contacted`
answers true for its address under any letter casing, and after the reset the
store is empty again so the id is no longer found. -/
theorem ledger_append_establishes_membership
    (df more : Ledger) (job_id job_title company email e2 : List Char)
    (status : Status) (today : Nat)
    (hne : e2 ≠ []) (hcase : lowerStr e2 = lowerStr email) :
    is_already_applied
        (some (record_application df job_id job_title company email status today ++ more))
        job_id = true ∧
    is_email_already_contacted
        (some (record_application df job_id job_title company email status today ++ more))
        (some e2) = true ∧
    is_already_applied (some reset_ledger) job_id = false := by
  refine ⟨?_, ?_, rfl⟩
  · simp only [is_already_applied, record_application]
    simp
  · simp only [is_email_already_contacted, record_application]
    have hemp : e2.isEmpty = false := by
      cases e2 with
      | nil => exact absurd rfl hne
      | cons a t => rfl
    simp only [hemp, Bool.false_eq_true, if_false, List.any_append, List.any_cons,
      List.any_nil, Bool.or_eq_true]
    left; right; left
    rw [lowerStr_idem, hcase]
    simp

/-- Witness for C8: append `{job_id: "A", email: "X@Y.com"}`; then
`hasAppliedToJob("A")` and `hasContactedEmail("x@y.com")` hold. -/
theorem ledger_append_establishes_membership_witness :
    (("x@y.com".data : List Char) ≠ []) ∧
    lowerStr ("x@y.com".data) = lowerStr ("X@Y.com".data) ∧
    is_already_applied
        (some (record_application [] ("A".data) ("t".data) ("c".data) ("X@Y.com".data)
          Status.sent 0 ++ [])) ("A".data) = true ∧
    is_email_already_contacted
        (some (record_application [] ("A".data) ("t".data) ("c".data) ("X@Y.com".data)
          Status.sent 0 ++ [])) (some ("x@y.com".data)) = true ∧
    is_already_applied (some reset_ledger) ("A".data) = false :=
  ⟨by decide, by decide,
   (ledger_append_establishes_membership [] [] ("A".data) ("t".data) ("c".data)
      ("X@Y.com".data) ("x@y.com".data) Status.sent 0 (by decide) (by decide)).1,
   (ledger_append_establishes_membership [] [] ("A".data) ("t".data) ("c".data)
      ("X@Y.com".data) ("x@y.com".data) Status.sent 0 (by decide) (by decide)).2.1,
   (ledger_append_establishes_membership [] [] ("A".data) ("t".data) ("c".data)
      ("X@Y.com".data) ("x@y.com".data) Status.sent 0 (by decide) (by decide)).2.2⟩

/-- Claim C9: when the Relevance Filter rejects the extracted title, the
detail extractor returns `Filtered(reason)` and its outcome is independent of
the page text — it never reaches the contact-address scan. -/
theorem filtered_title_returns_before_email_scan
    (keywords exclude_keywords : List (List Char)) (min_years : Nat)
    (first_row_text : Option (List Char)) (page_text page_text2 detail_url : List Char)
    (hrej : (is_relevant_job (parse_title_row first_row_text).1 keywords
      exclude_keywords min_years).1 = false) :
    scrape_job_detail_parallel keywords exclude_keywords min_years first_row_text
        page_text detail_url =
      Outcome.filtered (is_relevant_job (parse_title_row first_row_text).1 keywords
        exclude_keywords min_years).2 ∧
    scrape_job_detail_parallel keywords exclude_keywords min_years first_row_text
        page_text detail_url =
      scrape_job_detail_parallel keywords exclude_keywords min_years first_row_text
        page_text2 detail_url := by
  unfold scrape_job_detail_parallel
  simp only [hrej, Bool.not_false, if_true, and_self]

/-- Witness for C9: a page titled "Junior Java Dev at NY" is filtered, and
swapping a page body that contains a valid address for one that does not
leaves the outcome unchanged. -/
theorem filtered_title_returns_before_email_scan_witness :
    (is_relevant_job (parse_title_row (some ("Junior Java Dev at NY".data))).1
      [("java".data)] [("junior".data)] 0).1 = false ∧
    scrape_job_detail_parallel [("java".data)] [("junior".data)] 0
        (some ("Junior Java Dev at NY".data)) ("write to hr@x.co".data) ("u?id=9".data) =
      Outcome.filtered (is_relevant_job
        (parse_title_row (some ("Junior Java Dev at NY".data))).1
        [("java".data)] [("junior".data)] 0).2 ∧
    scrape_job_detail_parallel [("java".data)] [("junior".data)] 0
        (some ("Junior Java Dev at NY".data)) ("write to hr@x.co".data) ("u?id=9".data) =
      scrape_job_detail_parallel [("java".data)] [("junior".data)] 0
        (some ("Junior Java Dev at NY".data)) ("no address here".data) ("u?id=9".data) :=
  ⟨by decide,
   (filtered_title_returns_before_email_scan [("java".data)] [("junior".data)] 0
      (some ("Junior Java Dev at NY".data)) ("write to hr@x.co".data)
      ("no address here".data) ("u?id=9".data) (by decide)).1,
   (filtered_title_returns_before_email_scan [("java".data)] [("junior".data)] 0
      (some ("Junior Java Dev at NY".data)) ("write to hr@x.co".data)
      ("no address here".data) ("u?id=9".data) (by decide)).2⟩

/-- Claim C10: on a missing backing store every ledger query is total —
`hasAppliedToJob` and `hasContactedEmail` answer `false`, `countAppliedToday`
answers `0` — and `hasContactedEmail` also answers `false` for a `None` or
empty address whatever the store holds. -/
theorem ledger_queries_total_on_missing_store :
    (∀ job_id : List Char, is_already_applied none job_id = false) ∧
    (∀ email : Option (List Char), is_email_already_contacted none email = false) ∧
    (∀ today : Nat, get_todays_application_count none today = 0) ∧
    (∀ df : Ledger, is_email_already_contacted (some df) none = false) ∧
    (∀ df : Ledger, is_email_already_contacted (some df) (some []) = false) :=
  ⟨fun _ => rfl, fun _ => rfl, fun _ => rfl, fun _ => rfl, fun _ => rfl⟩
